import Mathlib

/-!
Shallow embedding of `src/main.c` of mtb-example-ccm-mqtt-ota-subscribe:
the AT command/response engine, the AWS provisioning flow, the event
notification loop and the event-queue drain, with the build configuration
fixed as in the source (`MODIFY_SSID_AFTER_CONNECTED = 0`,
`CIRRENT_APP_ONBOARDING = 0`, `AWS_FLOW = 1`).

The module at the other end of the UART is abstracted as the reply it
produces for a given command exchange: `none` models "no reply within the
timeout" (the engine returns a NULL body then), `some s` models a reply
with text `s` received before the timeout expires.
-/

namespace CCM

/-- `#define SUCCESS 1` (main.c line 33): the value the engine stores through
its `result` out-parameter on a successful exchange. -/
def SUCCESS : Nat := 1

/-- `#define FAILURE 0` (main.c line 34). -/
def FAILURE : Nat := 0

/-- `#define RESPONSE_DELAY (120000)` (main.c line 29): the uniform
per-command timeout, in milliseconds. -/
def RESPONSE_DELAY : Nat := 120000

/-- `#define SET_SSID "AT+CONF SSID=\n"` (main.c line 47). -/
def SET_SSID : String := "AT+CONF SSID=\n"

/-- `#define SET_PASSPHRASE "AT+CONF Passphrase=\n"` (main.c line 48). -/
def SET_PASSPHRASE : String := "AT+CONF Passphrase=\n"

/-- `#define SET_ENDPOINT "AT+CONF Endpoint=\n"` (main.c line 49). -/
def SET_ENDPOINT : String := "AT+CONF Endpoint=\n"

/-- The pair the engine produces for one exchange: the value stored through
the `result` pointer (`SUCCESS` or `FAILURE`) and the returned reply body
(`none` models a NULL `char *`). -/
structure ResponseOutcome where
  status : Nat
  body : Option String
  deriving DecidableEq, Repr

/-- Modelled from the spec: the Command/Response Engine
`at_command_send_receive(command, timeout, &result, expectedReply)` lives in
the CCM support library (`CCM.h`), not in `src/`.  Spec contract: the
engine writes `command`, then blocks until either (a) a reply arrives and,
if `expectedReply` is given, exactly matches it — success with the reply
body; (b) a non-matching reply arrives — failure with that body; or (c) no
reply arrives within `timeout` — failure with a null body.  With
`expectedReply` omitted (NULL), any reply before the timeout is success
with its raw text.  The module's reply for this exchange is passed in as
`reply`. -/
def at_command_send_receive (command : String) (timeout : Nat)
    (expectedReply : Option String) (reply : Option String) : ResponseOutcome :=
  match reply with
  | none => ⟨FAILURE, none⟩
  | some r =>
    match expectedReply with
    | none => ⟨SUCCESS, some r⟩
    | some e => if r = e then ⟨SUCCESS, some r⟩ else ⟨FAILURE, some r⟩

/-- The classification of one event descriptor returned by `AT+EVENT?`,
per the `strcmp` chain of the main loop (main.c lines 174-203). -/
inductive EventClassification where
  | msg
  | otaOffered
  | otaVerified
  | startup
  | unrecognized
  deriving DecidableEq, Repr

/-- The four event-descriptor literals of the main loop's `strcmp` chain,
in source order (main.c lines 174, 182, 190, 198). -/
def eventPatterns : List String :=
  ["OK 1 1 MSG\r\n", "OK 5 1 OTA\r\n", "OK 5 4 OTA\r\n", "OK 2 0 STARTUP\r\n"]

/-- The `strcmp` chain of the main loop (main.c lines 174-203): the event
descriptor is compared for exact equality against the four literals in
source order; anything else falls through every branch. -/
def eventClassify (s : String) : EventClassification :=
  if s = "OK 1 1 MSG\r\n" then EventClassification.msg
  else if s = "OK 5 1 OTA\r\n" then EventClassification.otaOffered
  else if s = "OK 5 4 OTA\r\n" then EventClassification.otaVerified
  else if s = "OK 2 0 STARTUP\r\n" then EventClassification.startup
  else EventClassification.unrecognized

/-- An observable action of the host: sending an AT command on the
transport, invoking the fatal error handler (`handle_error()`), triggering
the host reset (`NVIC_SystemReset()`), or one fixed-interval wait on the
Wi-Fi status poll of the companion-app onboarding strategy. -/
inductive Action where
  | cmd (text : String)
  | fatalError
  | hostReset
  | pollWifi
  deriving DecidableEq, Repr

/-- The action dispatched for one classified event (main.c lines 174-203):
`AT+GET1` for a message, `AT+OTA ACCEPT` for an offered image,
`AT+OTA APPLY` for a verified image, the host reset for the startup
descriptor, and nothing for an unrecognized descriptor. -/
def eventDispatch : EventClassification → List Action
  | EventClassification.msg => [Action.cmd "AT+GET1\n"]
  | EventClassification.otaOffered => [Action.cmd "AT+OTA ACCEPT\n"]
  | EventClassification.otaVerified => [Action.cmd "AT+OTA APPLY\n"]
  | EventClassification.startup => [Action.hostReset]
  | EventClassification.unrecognized => []

/-- One pass of the main `while (1)` loop body (main.c lines 165-207),
given the current `gpio_intr_flag` and the module's reply to the
`AT+EVENT?\n` query.  Returns the actions of the pass and the flag value
after it.  `none` models the pass whose behavior the C source leaves
undefined: `gpio_intr_flag` is set but the query times out, so `response`
is NULL and every `strcmp` call dereferences NULL.  On the startup
descriptor `NVIC_SystemReset()` never returns, so `gpio_intr_flag = false`
(line 205) is not executed and the flag keeps its value. -/
def mainLoopPass (flag : Bool) (eventReply : Option String) :
    Option (List Action × Bool) :=
  if flag then
    match (at_command_send_receive "AT+EVENT?\n" RESPONSE_DELAY none eventReply).body with
    | none => none
    | some r =>
      let c := eventClassify r
      some (Action.cmd "AT+EVENT?\n" :: eventDispatch c,
            if c = EventClassification.startup then flag else false)
  else
    some ([], flag)

/-- The actions of one main-loop pass, empty when the pass is skipped or
undefined. -/
def passActions (flag : Bool) (eventReply : Option String) : List Action :=
  ((mainLoopPass flag eventReply).map Prod.fst).getD []

/-- `gpio_interrupt_handler` (main.c lines 247-250): the interrupt callback
sets `gpio_intr_flag = true` unconditionally. -/
def gpio_interrupt_handler (flag : Bool) : Bool := true

/-- The two execution contexts that touch `gpio_intr_flag`: a rising-edge
interrupt (running `gpio_interrupt_handler`) and one main-loop pass with
the module's reply to its event query. -/
inductive Step where
  | interrupt
  | loopPass (eventReply : Option String)
  deriving DecidableEq, Repr

/-- The effect of one step of either context on `gpio_intr_flag` (`none`
when the step's behavior is undefined in the C source). -/
def stepFlag : Step → Bool → Option Bool
  | Step.interrupt, flag => some (gpio_interrupt_handler flag)
  | Step.loopPass r, flag => (mainLoopPass flag r).map Prod.snd

/-- The direct-credentials body of `wifionboarding` (main.c lines 236-244,
the `CIRRENT_APP_ONBOARDING = 0` branch compiled in this source): the two
command exchanges in source order, each paired with the `expectedReply`
argument passed to the engine — NULL for both. -/
def wifionboarding_direct : List (String × Option String) :=
  [(SET_SSID, none), (SET_PASSPHRASE, none)]

/-- The transport actions of the direct-credentials `wifionboarding`. -/
def wifionboardingTrace : List Action :=
  wifionboarding_direct.map (fun p => Action.cmd p.1)

/-- `empty_event_queue` (main.c lines 252-260), fuel-indexed: `result`
starts at 0 and the loop re-issues `AT+EVENT?\n` with expected reply
`OK\r\n` while `!result`; `replies k` is the module's reply to the k-th
query (counted from the starting index, first argument).  Returns
`some n` — the loop exited after `n` queries in total — when the engine
stores a non-zero `result` within `fuel` iterations, `none` when the fuel
runs out first. -/
def empty_event_queue (replies : Nat → Option String) : Nat → Nat → Option Nat
  | _, 0 => none
  | k, fuel + 1 =>
    if (at_command_send_receive "AT+EVENT?\n" RESPONSE_DELAY (some "OK\r\n")
          (replies k)).status = FAILURE then
      empty_event_queue replies (k + 1) fuel
    else
      some (k + 1)

/-- The commands issued by `empty_event_queue` within the given fuel: one
`AT+EVENT?\n` per executed loop iteration. -/
def drainActions (replies : Nat → Option String) : Nat → Nat → List Action
  | _, 0 => []
  | k, fuel + 1 =>
    Action.cmd "AT+EVENT?\n" ::
      (if (at_command_send_receive "AT+EVENT?\n" RESPONSE_DELAY (some "OK\r\n")
            (replies k)).status = FAILURE then
        drainActions replies (k + 1) fuel
      else
        [])

/-- The module's behavior for one run of `main` up to the main loop, with
the build configuration of the source (`AWS_FLOW = 1`).  The two boolean
fields model the spec's on-demand connectivity queries `is_aws_connected()`
and `is_wifi_connected()` (CCM library, not in `src/`); the `Option String`
fields are the module replies to the respective command exchanges, and
`eventReplies k` is the reply to the k-th drain query.  `drainFuel` bounds
the drain loop of the fuel-indexed embedding. -/
structure Env where
  awsConnected : Bool
  wifiConnected : Bool
  endpointReply : Option String
  ssidReply : Option String
  passReply : Option String
  connectReply : Option String
  topicReply : Option String
  subscribeReply : Option String
  eventReplies : Nat → Option String
  drainFuel : Nat

/-- The outcome of the cloud-connect exchange (main.c line 122):
`at_command_send_receive("AT+CONNECT\n", RESPONSE_DELAY, &result,
"OK 1 CONNECTED\r\n")`. -/
def connectOutcome (env : Env) : ResponseOutcome :=
  at_command_send_receive "AT+CONNECT\n" RESPONSE_DELAY
    (some "OK 1 CONNECTED\r\n") env.connectReply

/-- Main.c lines 159-163, executed unconditionally after the `AWS_FLOW`
block: store the topic name, subscribe to it, then drain the event
queue. -/
def postProvisionTrace (env : Env) : List Action :=
  Action.cmd "AT+CONF Topic1=data\n" :: Action.cmd "AT+SUBSCRIBE1\n" ::
    drainActions env.eventReplies 0 env.drainFuel

/-- The actions of `main` from the `AWS_FLOW` block to the top of the main
`while (1)` loop (main.c lines 107-163).  If `is_aws_connected()` is true
the whole provisioning block is skipped.  Otherwise: endpoint
configuration, then `wifionboarding()` when `is_wifi_connected()` is
false, then the cloud-connect exchange; `handle_error()` (modelled from
the spec: an unconditional error-handling exit in the CCM library, not in
`src/`, that does not return) is invoked when its `result` is not
`SUCCESS`, and nothing further runs after it. -/
def preLoopTrace (env : Env) : List Action :=
  if env.awsConnected then
    postProvisionTrace env
  else
    Action.cmd SET_ENDPOINT ::
      ((if env.wifiConnected then [] else wifionboardingTrace) ++
        Action.cmd "AT+CONNECT\n" ::
          (if (connectOutcome env).status ≠ SUCCESS then
            [Action.fatalError]
          else
            postProvisionTrace env))

/-- A command of the `AT+CONF` configuration family: its text starts with
the `AT+CONF ` keyword (compared character-wise). -/
def isConfigCmd (a : Action) : Bool :=
  match a with
  | Action.cmd s => "AT+CONF ".data.isPrefixOf s.data
  | _ => false

/-- One of the three provisioning configuration commands (endpoint, SSID,
passphrase). -/
def isProvisioningCfgCmd (a : Action) : Bool :=
  match a with
  | Action.cmd s => s == SET_ENDPOINT || s == SET_SSID || s == SET_PASSPHRASE
  | _ => false

/-- The cloud-connect command. -/
def isConnectCmd (a : Action) : Bool :=
  match a with
  | Action.cmd s => s == "AT+CONNECT\n"
  | _ => false

/-- An environment in which the module is already cloud-connected and
answers the first drain query with the idle-queue literal. -/
def envConnected : Env :=
  ⟨true, true, none, none, none, none, some "OK\r\n", some "OK\r\n",
    fun _ => some "OK\r\n", 1⟩

/-- An environment in which the module is neither cloud- nor
Wi-Fi-connected and the cloud-connect exchange times out (no reply). -/
def envConnectTimeout : Env :=
  ⟨false, false, some "OK\r\n", some "OK\r\n", some "OK\r\n", none,
    some "OK\r\n", some "OK\r\n", fun _ => some "OK\r\n", 1⟩

/-- Claim C2 as stated: whenever the initial cloud-connection status query
returns true, no configuration command (the `AT+CONF` family) and no
connect command appears in the trace before the main loop. -/
def C2_claimProp : Prop :=
  ∀ env : Env, env.awsConnected = true →
    (preLoopTrace env).filter (fun a => isConfigCmd a || isConnectCmd a) = []

/-- Claim C9 as stated: under the direct-credentials strategy both
onboarding exchanges are issued with the module's success acknowledgment
as their expected-match condition. -/
def C9_claimProp : Prop :=
  ∃ ack : String, wifionboarding_direct.map Prod.snd = [some ack, some ack]

/-- Claim C1: the Command/Response Engine contract — with an expected
reply, an exact match yields success carrying the reply body, a
non-matching reply yields failure carrying that body, and a timeout yields
failure with a null body; with no expected reply, any reply before the
timeout is success with its raw text (and a timeout is still failure with
a null body). -/
theorem C1_engine_contract (command : String) (timeout : Nat) (e r : String) :
    (at_command_send_receive command timeout (some e) (some r) =
      if r = e then ⟨SUCCESS, some r⟩ else ⟨FAILURE, some r⟩) ∧
    at_command_send_receive command timeout (some e) none = ⟨FAILURE, none⟩ ∧
    at_command_send_receive command timeout none (some r) = ⟨SUCCESS, some r⟩ ∧
    at_command_send_receive command timeout none none = ⟨FAILURE, none⟩ := by
  refine ⟨?_, rfl, rfl, rfl⟩
  simp only [at_command_send_receive]

/-- Claim C4: when the flag is set and the event query returns exactly
`OK 1 1 MSG\r\n`, the pass issues the query and then `AT+GET1\n` exactly
once, takes no other dispatch action, and clears the flag. -/
theorem C4_msg_event_single_get :
    mainLoopPass true (some "OK 1 1 MSG\r\n") =
      some ([Action.cmd "AT+EVENT?\n", Action.cmd "AT+GET1\n"], false) ∧
    (passActions true (some "OK 1 1 MSG\r\n")).count (Action.cmd "AT+GET1\n") = 1 ∧
    (passActions true (some "OK 1 1 MSG\r\n")).count Action.hostReset = 0 ∧
    (passActions true (some "OK 1 1 MSG\r\n")).count Action.fatalError = 0 := by
  refine ⟨?_, ?_, ?_, ?_⟩ <;> decide

/-- Claim C5: when the flag is set and the event query returns exactly
`OK 2 0 STARTUP\r\n`, the pass triggers the host reset as its last action —
no command follows it and the flag-clearing write is never reached (the
flag stays `true`). -/
theorem C5_startup_event_resets :
    mainLoopPass true (some "OK 2 0 STARTUP\r\n") =
      some ([Action.cmd "AT+EVENT?\n", Action.hostReset], true) ∧
    (passActions true (some "OK 2 0 STARTUP\r\n")).getLast? = some Action.hostReset ∧
    (mainLoopPass true (some "OK 2 0 STARTUP\r\n")).map Prod.snd = some true := by
  refine ⟨?_, ?_, ?_⟩ <;> decide

/-- With an expected reply, the engine stores `FAILURE` exactly when the
module's reply is not that exact text (timeout included). -/
theorem engine_expected_failure (command : String) (timeout : Nat) (e : String)
    (r : Option String) :
    (at_command_send_receive command timeout (some e) r).status = FAILURE ↔
      r ≠ some e := by
  cases r with
  | none => simp [at_command_send_receive]
  | some s =>
    by_cases h : s = e <;> simp [at_command_send_receive, h, SUCCESS, FAILURE]

/-- Every command issued by the drain loop is the event query. -/
theorem drainActions_mem (replies : Nat → Option String) :
    ∀ fuel k a, a ∈ drainActions replies k fuel → a = Action.cmd "AT+EVENT?\n" := by
  intro fuel
  induction fuel with
  | zero =>
    intro k a h
    simp [drainActions] at h
  | succ fuel ih =>
    intro k a h
    simp only [drainActions] at h
    rcases List.mem_cons.mp h with h1 | h2
    · exact h1
    · split at h2
      · exact ih (k + 1) a h2
      · simp at h2

/-- The topic-set/subscribe/drain tail never invokes the fatal error
handler. -/
theorem fatal_not_in_post (env : Env) :
    Action.fatalError ∉ postProvisionTrace env := by
  intro h
  simp only [postProvisionTrace, List.mem_cons] at h
  rcases h with h | h | h
  · exact absurd h (by decide)
  · exact absurd h (by decide)
  · exact absurd (drainActions_mem env.eventReplies env.drainFuel 0 _ h) (by decide)

/-- If the drain loop exits within some fuel, some query received the
idle-queue literal. -/
theorem drain_terminates_exists (replies : Nat → Option String) :
    ∀ fuel k n, empty_event_queue replies k fuel = some n →
      ∃ j, replies (k + j) = some "OK\r\n" := by
  intro fuel
  induction fuel with
  | zero =>
    intro k n h
    simp [empty_event_queue] at h
  | succ fuel ih =>
    intro k n h
    simp only [empty_event_queue] at h
    by_cases hk : replies k = some "OK\r\n"
    · exact ⟨0, by simpa using hk⟩
    · rw [if_pos ((engine_expected_failure _ _ _ _).mpr hk)] at h
      obtain ⟨j, hj⟩ := ih (k + 1) n h
      refine ⟨j + 1, ?_⟩
      have hidx : k + (j + 1) = k + 1 + j := by ring
      rw [hidx]
      exact hj

/-- If some query would receive the idle-queue literal, the drain loop
exits with enough fuel. -/
theorem drain_exists_terminates (replies : Nat → Option String) :
    ∀ j k, replies (k + j) = some "OK\r\n" →
      ∃ n, empty_event_queue replies k (j + 1) = some n := by
  intro j
  induction j with
  | zero =>
    intro k h
    refine ⟨k + 1, ?_⟩
    simp only [empty_event_queue]
    rw [if_neg]
    intro hc
    exact (engine_expected_failure _ _ _ _).mp hc (by simpa using h)
  | succ j ih =>
    intro k h
    by_cases hk : replies k = some "OK\r\n"
    · refine ⟨k + 1, ?_⟩
      simp only [empty_event_queue]
      rw [if_neg]
      intro hc
      exact (engine_expected_failure _ _ _ _).mp hc hk
    · have h' : replies (k + 1 + j) = some "OK\r\n" := by
        have hidx : k + 1 + j = k + (j + 1) := by ring
        rw [hidx]
        exact h
      obtain ⟨n, hn⟩ := ih (k + 1) h'
      refine ⟨n, ?_⟩
      simp only [empty_event_queue]
      rw [if_pos ((engine_expected_failure _ _ _ _).mpr hk)]
      exact hn

/-- Claim C10: the main-loop classification is well defined exactly when
the event query returned a non-null body: with the flag set, a timed-out
query (null reply) reaches the `strcmp` against NULL — undefined behavior
in C, the `none` case of the embedding — while every non-null reply gives
a defined pass. -/
theorem C10_null_reply_undefined :
    mainLoopPass true none = none ∧
    (∀ r : String, (mainLoopPass true (some r)).isSome = true) ∧
    (∀ r : Option String, (mainLoopPass true r).isSome = true ↔ r.isSome = true) := by
  refine ⟨rfl, ?_, ?_⟩
  · intro r
    simp [mainLoopPass, at_command_send_receive]
  · intro r
    cases r <;> simp [mainLoopPass, at_command_send_receive]

/-- Claim C7: the drain loop exits (for some fuel) exactly when some event
query is answered with the idle-queue literal `OK\r\n`; and when the very
first query is answered with it, the drain completes after exactly one
query. -/
theorem C7_drain_termination (replies : Nat → Option String) :
    ((∃ fuel n, empty_event_queue replies 0 fuel = some n) ↔
      ∃ k, replies k = some "OK\r\n") ∧
    (replies 0 = some "OK\r\n" → empty_event_queue replies 0 1 = some 1) := by
  constructor
  · constructor
    · rintro ⟨fuel, n, h⟩
      obtain ⟨j, hj⟩ := drain_terminates_exists replies fuel 0 n h
      exact ⟨j, by simpa using hj⟩
    · rintro ⟨k, hk⟩
      obtain ⟨n, hn⟩ := drain_exists_terminates replies k 0 (by simpa using hk)
      exact ⟨k + 1, n, hn⟩
  · intro h0
    simp only [empty_event_queue]
    rw [if_neg]
    intro hc
    exact (engine_expected_failure _ _ _ _).mp hc h0

/-- Witness for C7 at a module that answers every query with `OK\r\n`. -/
theorem C7_drain_witness :
    empty_event_queue (fun _ => some "OK\r\n") 0 1 = some 1 :=
  (C7_drain_termination (fun _ => some "OK\r\n")).2 rfl

/-- Counterexample to claim C9 as stated: neither onboarding exchange is
issued with an expected-match condition — the source passes NULL for
`expectedReply` in both `wifionboarding` calls (main.c lines 239, 242). -/
theorem C9_counterexample : ¬ C9_claimProp := by
  rintro ⟨ack, h⟩
  simp [wifionboarding_direct] at h

/-- Claim C9 (amended): the direct-credentials flow sends the SSID command
and then the passphrase command in that order, each issued with no
expected-reply constraint (any reply before the timeout counts as
success), and no Wi-Fi status wait loop follows. -/
theorem C9_onboarding_order :
    wifionboarding_direct = [(SET_SSID, none), (SET_PASSPHRASE, none)] ∧
    wifionboardingTrace = [Action.cmd SET_SSID, Action.cmd SET_PASSPHRASE] ∧
    Action.pollWifi ∉ wifionboardingTrace ∧
    wifionboarding_direct.map Prod.snd = [none, none] := by
  refine ⟨rfl, rfl, ?_, rfl⟩
  decide

/-- Counterexample to claim C2 as stated: with the module already
cloud-connected, the pre-main-loop trace still contains the topic-set
command `AT+CONF Topic1=data\n` (main.c line 159), which belongs to the
`AT+CONF` configuration family. -/
theorem C2_counterexample : ¬ C2_claimProp := by
  intro h
  have h0 := h envConnected rfl
  have hne : (preLoopTrace envConnected).filter
      (fun a => isConfigCmd a || isConnectCmd a) =
      [Action.cmd "AT+CONF Topic1=data\n"] := by decide
  rw [h0] at hne
  exact List.cons_ne_nil _ _ hne.symm

/-- Claim C2 (amended): whenever the initial cloud-connection status query
returns true, the flow issues no endpoint, SSID or passphrase
configuration command and no connect command before the main loop; every
pre-loop action is the topic-set command, the subscribe command, or an
event query of the drain. -/
theorem C2_idempotent_amended (env : Env) (h : env.awsConnected = true) :
    (preLoopTrace env).filter (fun a => isProvisioningCfgCmd a || isConnectCmd a) = [] ∧
    ∀ a ∈ preLoopTrace env,
      a = Action.cmd "AT+CONF Topic1=data\n" ∨ a = Action.cmd "AT+SUBSCRIBE1\n" ∨
        a = Action.cmd "AT+EVENT?\n" := by
  have hmem : ∀ a ∈ preLoopTrace env,
      a = Action.cmd "AT+CONF Topic1=data\n" ∨ a = Action.cmd "AT+SUBSCRIBE1\n" ∨
        a = Action.cmd "AT+EVENT?\n" := by
    intro a ha
    simp only [preLoopTrace] at ha
    rw [if_pos h] at ha
    simp only [postProvisionTrace, List.mem_cons] at ha
    rcases ha with h1 | h1 | h1
    · exact Or.inl h1
    · exact Or.inr (Or.inl h1)
    · exact Or.inr (Or.inr (drainActions_mem env.eventReplies env.drainFuel 0 a h1))
  refine ⟨List.filter_eq_nil_iff.mpr ?_, hmem⟩
  intro a ha
  rcases hmem a ha with h1 | h1 | h1 <;> subst h1 <;> decide

/-- Witness for C2 (amended) at a module that is already cloud-connected
and drains in one query. -/
theorem C2_idempotent_witness :
    (preLoopTrace envConnected).filter
      (fun a => isProvisioningCfgCmd a || isConnectCmd a) = [] :=
  (C2_idempotent_amended envConnected rfl).1

/-- Claim C6: in the primary (AWS) flow the fatal error handler is invoked
exactly when the provisioning block runs and the cloud-connect exchange
does not store `SUCCESS` (timeout or any reply other than
`OK 1 CONNECTED\r\n`); it is then the last action — invoked once, with no
command after it.  The iff over every environment shows no other step's
failure is treated as fatal. -/
theorem C6_connect_failure_fatal (env : Env) :
    ((Action.fatalError ∈ preLoopTrace env) ↔
      (env.awsConnected = false ∧ (connectOutcome env).status ≠ SUCCESS)) ∧
    (env.awsConnected = false → (connectOutcome env).status ≠ SUCCESS →
      (preLoopTrace env).count Action.fatalError = 1 ∧
      (preLoopTrace env).getLast? = some Action.fatalError) := by
  cases haws : env.awsConnected with
  | true =>
    refine ⟨⟨fun hmem => ?_, fun hrhs => ?_⟩, fun hfalse _ => ?_⟩
    · simp only [preLoopTrace] at hmem
      rw [if_pos haws] at hmem
      exact absurd hmem (fatal_not_in_post env)
    · exact absurd hrhs.1 (by decide)
    · exact absurd hfalse (by decide)
  | false =>
    have hawsp : ¬(env.awsConnected = true) := by simp [haws]
    by_cases hfail : (connectOutcome env).status = SUCCESS
    · have htrace : preLoopTrace env =
          Action.cmd SET_ENDPOINT ::
            ((if env.wifiConnected then [] else wifionboardingTrace) ++
              Action.cmd "AT+CONNECT\n" :: postProvisionTrace env) := by
        have hnot : ¬((connectOutcome env).status ≠ SUCCESS) := fun hn => hn hfail
        simp only [preLoopTrace]
        rw [if_neg hawsp, if_neg hnot]
      have hnofatal : Action.fatalError ∉ preLoopTrace env := by
        rw [htrace]
        intro hmem
        rcases List.mem_cons.mp hmem with h1 | h1
        · exact absurd h1 (by decide)
        rcases List.mem_append.mp h1 with h2 | h2
        · by_cases hw : env.wifiConnected = true
          · rw [if_pos hw] at h2
            exact absurd h2 (by decide)
          · rw [if_neg hw] at h2
            exact absurd h2 (by decide)
        · rcases List.mem_cons.mp h2 with h3 | h3
          · exact absurd h3 (by decide)
          · exact absurd h3 (fatal_not_in_post env)
      refine ⟨⟨fun hmem => absurd hmem hnofatal, fun hrhs => absurd hfail hrhs.2⟩,
        fun _ hne => absurd hfail hne⟩
    · have htrace : preLoopTrace env =
          Action.cmd SET_ENDPOINT ::
            ((if env.wifiConnected then [] else wifionboardingTrace) ++
              Action.cmd "AT+CONNECT\n" :: [Action.fatalError]) := by
        simp only [preLoopTrace]
        rw [if_neg hawsp, if_pos hfail]
      refine ⟨⟨fun _ => ⟨rfl, hfail⟩, fun _ => ?_⟩, fun _ _ => ?_⟩
      · rw [htrace]
        simp
      · rw [htrace]
        by_cases hw : env.wifiConnected = true
        · rw [if_pos hw]
          decide
        · rw [if_neg hw]
          decide

/-- Witness for C6 at a disconnected module whose cloud-connect exchange
times out. -/
theorem C6_connect_failure_witness :
    (preLoopTrace envConnectTimeout).count Action.fatalError = 1 ∧
    (preLoopTrace envConnectTimeout).getLast? = some Action.fatalError :=
  (C6_connect_failure_fatal envConnectTimeout).2 rfl (by decide)

/-- Claim C3: at most one event pattern matches any descriptor, each
classification holds exactly for its literal (no partial or prefix
matching), and an unmatched descriptor dispatches nothing — the pass
issues only the query itself and clears the flag. -/
theorem C3_classification_exclusive (s : String) :
    eventPatterns.count s ≤ 1 ∧
    (eventClassify s = EventClassification.msg ↔ s = "OK 1 1 MSG\r\n") ∧
    (eventClassify s = EventClassification.otaOffered ↔ s = "OK 5 1 OTA\r\n") ∧
    (eventClassify s = EventClassification.otaVerified ↔ s = "OK 5 4 OTA\r\n") ∧
    (eventClassify s = EventClassification.startup ↔ s = "OK 2 0 STARTUP\r\n") ∧
    (eventClassify s = EventClassification.unrecognized →
      mainLoopPass true (some s) = some ([Action.cmd "AT+EVENT?\n"], false)) := by
  by_cases h1 : s = "OK 1 1 MSG\r\n"
  · subst h1; decide
  by_cases h2 : s = "OK 5 1 OTA\r\n"
  · subst h2; decide
  by_cases h3 : s = "OK 5 4 OTA\r\n"
  · subst h3; decide
  by_cases h4 : s = "OK 2 0 STARTUP\r\n"
  · subst h4; decide
  have hc : eventClassify s = EventClassification.unrecognized := by
    simp [eventClassify, h1, h2, h3, h4]
  have hcount : eventPatterns.count s = 0 := by
    rw [List.count_eq_zero]
    simp [eventPatterns, h1, h2, h3, h4]
  refine ⟨by rw [hcount]; decide,
    by simp [hc, h1], by simp [hc, h2], by simp [hc, h3], by simp [hc, h4], ?_⟩
  intro _
  simp [mainLoopPass, at_command_send_receive, hc, eventDispatch]

/-- Witness for C3 at the idle-queue literal, which matches no event
pattern. -/
theorem C3_classification_witness :
    mainLoopPass true (some "OK\r\n") = some ([Action.cmd "AT+EVENT?\n"], false) :=
  (C3_classification_exclusive "OK\r\n").2.2.2.2.2 (by decide)

/-- Claim C8: the shared flag goes false→true only in a step of the
interrupt callback, and true→false only in a main-loop step whose
classification pass completed (a non-null event reply that is not the
startup descriptor, after which line 205 clears the flag); no step does
the reverse. -/
theorem C8_flag_transitions (s : Step) (b b' : Bool)
    (h : stepFlag s b = some b') :
    (b = false → b' = true → s = Step.interrupt) ∧
    (b = true → b' = false →
      ∃ r, s = Step.loopPass (some r) ∧
        eventClassify r ≠ EventClassification.startup) := by
  cases s with
  | interrupt =>
    refine ⟨fun _ _ => rfl, fun _ hb' => ?_⟩
    subst hb'
    simp [stepFlag, gpio_interrupt_handler] at h
  | loopPass r =>
    cases b with
    | false =>
      refine ⟨fun _ hb' => ?_, fun hb _ => absurd hb (by decide)⟩
      subst hb'
      simp [stepFlag, mainLoopPass] at h
    | true =>
      refine ⟨fun hb _ => absurd hb (by decide), fun _ hb' => ?_⟩
      subst hb'
      cases r with
      | none =>
        simp [stepFlag, mainLoopPass, at_command_send_receive] at h
      | some str =>
        refine ⟨str, rfl, ?_⟩
        intro hcl
        simp [stepFlag, mainLoopPass, at_command_send_receive, hcl] at h

/-- Witness for C8 at a message-event pass that clears the flag. -/
theorem C8_flag_witness :
    ∃ r, Step.loopPass (some "OK 1 1 MSG\r\n") = Step.loopPass (some r) ∧
      eventClassify r ≠ EventClassification.startup :=
  (C8_flag_transitions (Step.loopPass (some "OK 1 1 MSG\r\n")) true false
    (by decide)).2 rfl rfl

end CCM
